/-
Verification development for the WILDkCAT kcat matching core.

Shallow embedding of the final matching module
(non_functional_approaches/third_try/matching.py), the similarity ranker
(wildkcat/utils/organism.py), the Arrhenius temperature corrector
(kcatmatchmod/utils/temperature.py) and the variant extraction
(kcatmatchmod/api/brenda_api.py).

Modelling conventions:
* pandas DataFrames are lists of records (structure `Row`); filters keep the
  original row order, as pandas boolean indexing does;
* nullable columns (NaN) are `Option` fields; pandas comparisons against NaN
  are false, which is mirrored by matching on `Option`;
* numeric columns are embedded as rationals where the code only compares,
  aggregates and copies them, and as reals where the code takes logarithms
  and exponentials (the Arrhenius corrector);
* `logging.warning` calls are modelled as an explicit list of emitted
  messages threaded through the functions that can log;
* `raise ValueError` is modelled with `Except String`.
-/
import Mathlib

deriving instance DecidableEq for Except

namespace WildKcat

/-- str.split(';') on the underlying characters: splitting on every
semicolon, keeping empty pieces (so the empty string yields one empty
piece), as Python's str.split with an explicit separator does. -/
def split_chars (c : Char) : List Char → List (List Char)
  | [] => [[]]
  | a :: rest =>
    match split_chars c rest with
    | [] => [[a]]
    | g :: gs => if a = c then [] :: g :: gs else (a :: g) :: gs

/-- str.split(';') producing strings. -/
def split_semi (s : String) : List String :=
  (split_chars ';' s.data).map (fun l => String.mk l)

/-- str.strip(): drop leading and trailing whitespace. -/
def trim_str (s : String) : String :=
  String.mk (((s.data.dropWhile Char.isWhitespace).reverse.dropWhile
    Char.isWhitespace).reverse)

/-- str.lower(), characterwise (the data handled is ASCII). -/
def lower_str (s : String) : String :=
  String.mk (s.data.map Char.toLower)

/-- Python's `c in s` for a single character. -/
def contains_char (s : String) (c : Char) : Bool :=
  s.data.contains c

/-- The pattern is an initial segment of the text. -/
def starts_with : List Char → List Char → Bool
  | [], _ => true
  | _ :: _, [] => false
  | p :: ps, a :: rest => p == a && starts_with ps rest

/-- The pattern occurs somewhere in the text. -/
def contains_chars (pat : List Char) : List Char → Bool
  | [] => pat.isEmpty
  | a :: rest => starts_with pat (a :: rest) || contains_chars pat rest

/-- Python's `pat in s` substring test. -/
def contains_sub (s pat : String) : Bool :=
  contains_chars pat.data s.data

/-- One normalized candidate record, the row shape consumed by
third_try/matching.py (columns: db, UniProtKB_AC, KeggReactionID, Substrate,
Product, Organism, Temperature, pH, "Enzyme Variant", value). -/
structure Row where
  db : String
  uniProtAC : Option String
  keggReactionID : Option String
  substrate : String
  product : String
  organism : String
  temperature : Option ℚ
  ph : Option ℚ
  variant : Option String
  value : Option ℚ
deriving DecidableEq, Repr

/-- One reaction query (the kcat_dict produced by the extraction step);
only the keys read by the matching module are modelled. -/
structure Query where
  ec_code : String
  uniprot_model : Option String
  kegg_rxn_id : Option String
  substrates_name : Option String
  products_name : Option String
deriving DecidableEq, Repr

/-- The general_criteria dictionary: organism, temperature range, pH range,
expected enzyme variant. -/
structure Criteria where
  organism : String
  tempMin : ℚ
  tempMax : ℚ
  phMin : ℚ
  phMax : ℚ
  variant : String
deriving DecidableEq, Repr

/-- to_set: split a semicolon-joined field into its set of names;
NaN becomes the empty set. -/
def to_set (s : Option String) : List String :=
  match s with
  | none => []
  | some s => split_semi s

/-- not isdisjoint: the two name sets share at least one element. -/
def overlaps (a b : List String) : Bool :=
  a.any (fun x => b.contains x)

/-- First-occurrence deduplication with an accumulator of elements already
seen (pandas Series.unique keeps first occurrences in order). -/
def unique_first_aux {α : Type} [BEq α] (seen : List α) : List α → List α
  | [] => []
  | a :: rest =>
    if seen.contains a then unique_first_aux seen rest
    else a :: unique_first_aux (a :: seen) rest

/-- First-occurrence deduplication, the semantics of pandas Series.unique. -/
def unique_first {α : Type} [BEq α] (l : List α) : List α :=
  unique_first_aux [] l

/-- find_rxn_direction: direction-aware substrate/product matching for
SABIO-RK rows.  Returns the matching sub-frame together with the list of
warnings logged.  Steps, as in the source: (1) keep rows whose substrate set
meets the query substrates; (2) else rows whose product set meets the query
products; (3) else, if the opposite direction matches (row substrates vs
query products, or row products vs query substrates) return an empty frame
silently; (4) else return an empty frame and log a warning.
(The warning message text is abbreviated; only its presence is modelled.) -/
def find_rxn_direction (q : Query) (df : List Row) : List Row × List String :=
  let substrates_kcat := to_set q.substrates_name
  let products_kcat := to_set q.products_name
  let substrate_matches :=
    df.filter (fun r => overlaps substrates_kcat (to_set (some r.substrate)))
  if !substrate_matches.isEmpty then (substrate_matches, [])
  else
    let product_matches :=
      df.filter (fun r => overlaps products_kcat (to_set (some r.product)))
    if !product_matches.isEmpty then (product_matches, [])
    else
      let opposite_sub :=
        df.filter (fun r => overlaps products_kcat (to_set (some r.substrate)))
      if !opposite_sub.isEmpty then ([], [])
      else
        let opposite_prod :=
          df.filter (fun r => overlaps substrates_kcat (to_set (some r.product)))
        if !opposite_prod.isEmpty then ([], [])
        else ([], ["no substrate or product matches between the two data sets"])

/-- The query substrate names, stripped, lowercased, empties removed
(model_substrates in check_substrate). -/
def model_substrates (q : Query) : List String :=
  (split_semi (q.substrates_name.getD "")).filterMap
    (fun s => if trim_str s = "" then none else some (lower_str (trim_str s)))

/-- has_substrate_match: some model substrate occurs among the row's
stripped, lowercased substrate names. -/
def has_substrate_match (q : Query) (rowSubstrates : String) : Bool :=
  let api_substrates := (split_semi rowSubstrates).filterMap
    (fun s => if trim_str s = "" then none else some (lower_str (trim_str s)))
  (model_substrates q).any (fun s => api_substrates.contains s)

/-- The per-database body of check_substrate's loop, processing the unique
db tags in first-appearance order and concatenating the per-db matches.
An unknown db tag raises ValueError (modelled with Except.error). -/
def check_substrate_go (q : Query) (df : List Row) :
    List String → Except String (List Row × List String)
  | [] => .ok ([], [])
  | api :: rest =>
    if api = "sabio_rk" then
      let db_subset := df.filter (fun r => r.db == api)
      let keggStep : Option (List Row) × List String :=
        match q.kegg_rxn_id with
        | none => (none, [])
        | some kegg =>
          let kegg_rxn_matches :=
            db_subset.filter (fun r => r.keggReactionID == some kegg)
          if kegg_rxn_matches.isEmpty then (none, [])
          else
            let res := find_rxn_direction q kegg_rxn_matches
            if res.1.isEmpty then (none, res.2) else (some res.1, res.2)
      match keggStep.1 with
      | some res =>
        (check_substrate_go q df rest).map
          (fun acc => (res ++ acc.1, keggStep.2 ++ acc.2))
      | none =>
        let substrate_matches :=
          db_subset.filter (fun r => has_substrate_match q r.substrate)
        (check_substrate_go q df rest).map
          (fun acc => (substrate_matches ++ acc.1, keggStep.2 ++ acc.2))
    else if api = "brenda" then
      let db_subset := df.filter (fun r => r.db == api)
      let substrate_matches :=
        db_subset.filter (fun r =>
          (model_substrates q).contains (lower_str r.substrate))
      (check_substrate_go q df rest).map
        (fun acc => (substrate_matches ++ acc.1, acc.2))
    else .error ("Unknown API in db column: " ++ api)

/-- check_substrate: source-dependent substrate matching over the pool,
grouped by the unique db tags. -/
def check_substrate (q : Query) (df : List Row) :
    Except String (List Row × List String) :=
  check_substrate_go q df (unique_first (df.map (fun r => r.db)))

/-- check_enzyme: keep rows whose UniProt accession equals the query's
uniprot_model (pandas comparison: NaN on either side never matches). -/
def check_enzyme (q : Query) (df : List Row) : List Row :=
  df.filter (fun r =>
    match q.uniprot_model, r.uniProtAC with
    | some a, some b => a == b
    | _, _ => false)

/-- check_organism: exact, case-sensitive organism equality. -/
def check_organism (df : List Row) (gc : Criteria) : List Row :=
  df.filter (fun r => r.organism == gc.organism)

/-- check_temp: rows whose temperature lies within the range, inclusive
(pandas between; NaN is excluded). -/
def check_temp (df : List Row) (gc : Criteria) : List Row :=
  df.filter (fun r =>
    match r.temperature with
    | some t => decide (gc.tempMin ≤ t ∧ t ≤ gc.tempMax)
    | none => false)

/-- check_ph: rows whose pH lies within the range, inclusive. -/
def check_ph (df : List Row) (gc : Criteria) : List Row :=
  df.filter (fun r =>
    match r.ph with
    | some p => decide (gc.phMin ≤ p ∧ p ≤ gc.phMax)
    | none => false)

/-- check_variant: keep only rows whose "Enzyme Variant" equals the literal
string wildtype (third_try version; NaN/unknown rows are dropped). -/
def check_variant (df : List Row) : List Row :=
  df.filter (fun r => r.variant == some "wildtype")

/-- create_kcat_value (third_try): aggregate the kcat values, returning the
value together with its source db.  Method min (the default) or max picks
the first row achieving the extremum (pandas idxmin/idxmax); any other
method raises ValueError.  No valid numeric values yields (None, None). -/
def create_kcat_value (df : List Row) (method : String) :
    Except String (Option ℚ × Option String) :=
  let somes := df.filterMap (fun r => r.value)
  if somes.isEmpty then .ok (none, none)
  else if method = "max" then
    match somes.max? with
    | none => .ok (none, none)
    | some m =>
      match df.find? (fun r => r.value == some m) with
      | some r => .ok (some m, some r.db)
      | none => .ok (none, none)
  else if method = "min" then
    match somes.min? with
    | none => .ok (none, none)
    | some m =>
      match df.find? (fun r => r.value == some m) with
      | some r => .ok (some m, some r.db)
      | none => .ok (none, none)
  else .error "Invalid method parameter. Choose from max, or min."

/-- _calculate_identity (wildkcat/utils/organism.py): 100 times the number
of positionwise identical characters between the two (aligned) sequences,
divided by the length of the first argument. -/
def match_count (seqRef seqDb : List Char) : ℕ :=
  ((seqRef.zip seqDb).filter (fun p => p.1 == p.2)).length

/-- _calculate_identity, as a rational (Python computes a float). -/
def calculate_identity (seqRef seqDb : List Char) : ℚ :=
  (100 * (match_count seqRef seqDb : ℚ)) / (seqRef.length : ℚ)

/-- The external sequence service (convert_uniprot_to_sequence):
accession to amino-acid sequence, None when unresolvable. -/
abbrev Fetch := String → Option (List Char)

/-- The external pairwise aligner (Bio.Align.PairwiseAligner): a pair of
sequences to the two gapped rows of the best global alignment. -/
abbrev AlignFn := List Char → List Char → List Char × List Char

/-- The per-row identity score inside closest_org's loop: None when the
row's accession is missing or its sequence unresolvable, 0 for an empty
sequence, else the alignment identity. -/
def identity_of (fetch : Fetch) (align : AlignFn) (refSeq : List Char)
    (r : Row) : Option ℚ :=
  match r.uniProtAC with
  | none => none
  | some acc =>
    match fetch acc with
    | none => none
    | some s =>
      if s.length = 0 then some 0
      else
        let p := align refSeq s
        some (calculate_identity p.1 p.2)

/-- closest_org: annotate every pool row with an identity percentage
against the reference accession.  If the reference accession is missing,
contains a semicolon (ambiguous), or its sequence cannot be retrieved,
every row gets a None score and the pool is returned otherwise unchanged. -/
def closest_org (fetch : Fetch) (align : AlignFn) (q : Query)
    (df : List Row) : List (Row × Option ℚ) :=
  match q.uniprot_model with
  | none => df.map (fun r => (r, none))
  | some ref =>
    if contains_char ref ';' then df.map (fun r => (r, none))
    else
      match fetch ref with
      | none => df.map (fun r => (r, none))
      | some refSeq => df.map (fun r => (r, identity_of fetch align refSeq r))

/-- get_variant (kcatmatchmod/api/brenda_api.py): classify a commentary
text as wildtype, mutant, or unknown (None). -/
def get_variant (text : Option String) : Option String :=
  match text with
  | none => none
  | some t =>
    let low := lower_str t
    if contains_sub low "wild" then some "wildtype"
    else if contains_sub low "mutant" || contains_sub low "mutated" ||
        contains_sub low "mutation" then some "mutant"
    else none

/-- A level result as returned by the third_try matchers:
(kcat value, matching score, source db), each nullable. -/
abbrev LevelResult := Option ℚ × Option ℚ × Option String

/-- Result of a matcher together with the warnings it logged, or the
message of a raised ValueError. -/
abbrev MatchE := Except String (LevelResult × List String)

/-- The Arrhenius correction function used by the matcher
(wildkcat/utils/temperature.py, signature arrhenius_equation(df,
general_criteria)); that file is absent from the repository snapshot, so
the matcher is parameterized over it. -/
abbrev Arr := List Row → Criteria → Option ℚ

/-- The enzyme, substrate, organism and pH stages of match_exact; an empty
frame at any stage short-circuits (the warnings logged so far remain). -/
def match_exact_filtered (q : Query) (df : List Row) (gc : Criteria) :
    Except String (List Row × List String) :=
  let df0 := check_enzyme q df
  if df0.isEmpty then .ok ([], [])
  else
    match check_substrate q df0 with
    | .error e => .error e
    | .ok (df1, w) =>
      if df1.isEmpty then .ok ([], w)
      else
        let df2 := check_organism df1 gc
        if df2.isEmpty then .ok ([], w)
        else .ok (check_ph df2 gc, w)

/-- match_exact: enzyme, substrate, organism and pH must all match; the
temperature check may be satisfied directly (score 1) or via the Arrhenius
correction (score 1.2, db None); otherwise the level yields no hit. -/
def match_exact (arr : Arr) (q : Query) (df : List Row) (gc : Criteria) :
    MatchE :=
  match match_exact_filtered q df gc with
  | .error e => .error e
  | .ok (df1, w) =>
    if df1.isEmpty then .ok ((none, none, none), w)
    else
      let df_temp := check_temp df1 gc
      if df_temp.isEmpty then
        match arr df1 gc with
        | some kcat => .ok ((some kcat, some 1.2, none), w)
        | none => .ok ((none, none, none), w)
      else
        match create_kcat_value df_temp "min" with
        | .error e => .error e
        | .ok (kcat, db) => .ok ((kcat, some 1, db), w)

/-- relax_organism: substrate and pH required; temperature directly
(score 3) or via Arrhenius correction (score 3.2). -/
def relax_organism (arr : Arr) (q : Query) (df : List Row) (gc : Criteria) :
    MatchE :=
  match check_substrate q df with
  | .error e => .error e
  | .ok (df1, w) =>
    if df1.isEmpty then .ok ((none, none, none), w)
    else
      let df2 := check_ph df1 gc
      if df2.isEmpty then .ok ((none, none, none), w)
      else
        let df_temp := check_temp df2 gc
        if df_temp.isEmpty then
          match arr df2 gc with
          | some kcat => .ok ((some kcat, some 3.2, none), w)
          | none => .ok ((none, none, none), w)
        else
          match create_kcat_value df_temp "min" with
          | .error e => .error e
          | .ok (kcat, db) => .ok ((kcat, some 3, db), w)

/-- relax_enzyme: substrate and pH required, similarity annotation via
closest_org, aggregation over the annotated frame (score 2). -/
def relax_enzyme (fetch : Fetch) (align : AlignFn) (q : Query)
    (df : List Row) (gc : Criteria) : MatchE :=
  match check_substrate q df with
  | .error e => .error e
  | .ok (df1, w) =>
    if df1.isEmpty then .ok ((none, none, none), w)
    else
      let df2 := check_ph df1 gc
      if df2.isEmpty then .ok ((none, none, none), w)
      else
        let ann := closest_org fetch align q df2
        if ann.isEmpty then .ok ((none, none, none), w)
        else
          match create_kcat_value (ann.map Prod.fst) "min" with
          | .error e => .error e
          | .ok (kcat, db) => .ok ((kcat, some 2, db), w)

/-- relax_temp_and_ph: enzyme, substrate and organism only (score 4). -/
def relax_temp_and_ph (q : Query) (df : List Row) (gc : Criteria) : MatchE :=
  let df0 := check_enzyme q df
  if df0.isEmpty then .ok ((none, none, none), [])
  else
    match check_substrate q df0 with
    | .error e => .error e
    | .ok (df1, w) =>
      if df1.isEmpty then .ok ((none, none, none), w)
      else
        let df2 := check_organism df1 gc
        if df2.isEmpty then .ok ((none, none, none), w)
        else
          match create_kcat_value df2 "min" with
          | .error e => .error e
          | .ok (kcat, db) => .ok ((kcat, some 4, db), w)

/-- just_ec: any surviving candidate, aggregated (score 5). -/
def just_ec (df : List Row) : MatchE :=
  match create_kcat_value df "min" with
  | .error e => .error e
  | .ok (kcat, db) => .ok ((kcat, some 5, db), [])

/-- find_best_match (third_try): filter the pool to wildtype rows, then try
the levels in the source's order — exact match, relax organism, relax
enzyme, relax temperature and pH, EC only — returning the first level whose
kcat is not None, else the sentinel (None, 9, None).  The second component
collects every warning logged during the evaluated levels. -/
def find_best_match (arr : Arr) (fetch : Fetch) (align : AlignFn)
    (q : Query) (df : List Row) (gc : Criteria) : MatchE :=
  let pool := check_variant df
  match match_exact arr q pool gc with
  | .error e => .error e
  | .ok (r1, w1) =>
    match r1.1 with
    | some _ => .ok (r1, w1)
    | none =>
      match relax_organism arr q pool gc with
      | .error e => .error e
      | .ok (r2, w2) =>
        match r2.1 with
        | some _ => .ok (r2, w1 ++ w2)
        | none =>
          match relax_enzyme fetch align q pool gc with
          | .error e => .error e
          | .ok (r3, w3) =>
            match r3.1 with
            | some _ => .ok (r3, w1 ++ w2 ++ w3)
            | none =>
              match relax_temp_and_ph q pool gc with
              | .error e => .error e
              | .ok (r4, w4) =>
                match r4.1 with
                | some _ => .ok (r4, w1 ++ w2 ++ w3 ++ w4)
                | none =>
                  match just_ec pool with
                  | .error e => .error e
                  | .ok (r5, w5) =>
                    match r5.1 with
                    | some _ => .ok (r5, w1 ++ w2 ++ w3 ++ w4 ++ w5)
                    | none =>
                      .ok ((none, some 9, none),
                        w1 ++ w2 ++ w3 ++ w4 ++ w5)

/-- Modelled from the spec: the feasibility condition of the Arrhenius
corrector used by the final matcher (wildkcat/utils/temperature.py, absent
from the snapshot) — among the rows handed to it (already restricted by the
caller), those within the pH range carrying a numeric temperature and a
numeric kcat must span at least two distinct temperatures. -/
def qualifying_temps (df : List Row) (gc : Criteria) : List ℚ :=
  df.filterMap (fun r =>
    match r.temperature, r.value, r.ph with
    | some t, some _, some p =>
      if gc.phMin ≤ p ∧ p ≤ gc.phMax then some t else none
    | _, _, _ => none)

/-- Modelled from the spec: the Arrhenius correction is feasible exactly
when at least two distinct qualifying temperature observations exist. -/
def arr_applicable (df : List Row) (gc : Criteria) : Bool :=
  2 ≤ (unique_first (qualifying_temps df gc)).length

/-- Modelled from the spec: any faithful model of the missing
wildkcat/utils/temperature.py arrhenius_equation skips the correction
(returns None) whenever the feasibility condition fails. -/
def ArrGateFaithful (arr : Arr) : Prop :=
  ∀ df gc, arr_applicable df gc = false → arr df gc = none

/-- The trivial correction oracle: no correction ever available (gate
faithful; used to close concrete scenarios whose pools make the
feasibility condition fail). -/
def no_correction : Arr := fun _ _ => none

/-- A sequence service that resolves nothing. -/
def no_fetch : Fetch := fun _ => none

/-- A degenerate aligner returning its inputs unchanged (concrete stand-in
for the external aligner in scenarios where it is never consulted or where
the sequences are already aligned). -/
def pair_align : AlignFn := fun a b => (a, b)

/-
Arrhenius temperature corrector (kcatmatchmod/utils/temperature.py).
The pipeline takes logarithms and exponentials, so it is embedded over the
reals; the noncomputable section mirrors floating-point code only.
-/

noncomputable section

/-- One row as read by arrhenius_equation: UniProtKB_AC, Temperature (°C),
pH and value columns, each nullable. -/
structure RowT where
  uniProtAC : Option String
  temperature : Option ℝ
  ph : Option ℝ
  value : Option ℝ

/-- The criteria fields read by arrhenius_equation: temperature range and
pH range. -/
structure CriteriaR where
  tempMin : ℝ
  tempMax : ℝ
  phMin : ℝ
  phMax : ℝ

/-- The degree-1 least-squares slope of np.polyfit(x, y, 1), in closed form
(n·Σxy − Σx·Σy) / (n·Σx² − (Σx)²), the solution of the normal equations
whenever the x values are not all equal. -/
def ols_slope (xs ys : List ℝ) : ℝ :=
  let n : ℝ := xs.length
  let sx := xs.sum
  let sy := ys.sum
  let sxy := ((xs.zip ys).map (fun p => p.1 * p.2)).sum
  let sxx := (xs.map (fun x => x * x)).sum
  (n * sxy - sx * sy) / (n * sxx - sx * sx)

/-- find_ea: convert the incoming Temperature column to Kelvin by adding
273.15, regress ln(value) on 1/T, and return Ea = -slope · 8.314.
(The rows arrive with missing values already dropped by the caller's
filter, so the source's dropna is the identity here; the
expected-range check only logs.) -/
def find_ea (rows : List (ℝ × ℝ)) : ℝ :=
  let temps_K := rows.map (fun r => r.1 + 273.15)
  let xs := temps_K.map (fun t => 1 / t)
  let ys := rows.map (fun r => Real.log r.2)
  let slope := ols_slope xs ys
  (-slope) * 8.314

/-- calculate_kcat: Arrhenius extrapolation of kcat_ref from temp_ref to
temp_obj with activation energy ea. -/
def calculate_kcat (temp_obj ea kcat_ref temp_ref : ℝ) : ℝ :=
  kcat_ref * Real.exp (ea / 8.314 * (1 / temp_ref - 1 / temp_obj))

/-- The filter inside arrhenius_equation: rows sharing the candidate's
accession, with numeric temperature and value, and pH within range, kept
as raw (Temperature °C, value) pairs. -/
def arrhenius_filter (cand : Option String) (pool : List RowT)
    (gc : CriteriaR) : List (ℝ × ℝ) :=
  pool.filterMap (fun r => do
    let a ← cand
    let b ← r.uniProtAC
    let t ← r.temperature
    let v ← r.value
    let p ← r.ph
    if a = b ∧ gc.phMin ≤ p ∧ p ≤ gc.phMax then pure (t, v) else none)

/-- arrhenius_equation (kcatmatchmod version): filter the pool, convert the
temperatures to Kelvin (find_ea then adds 273.15 a second time, as in the
source), estimate Ea, and extrapolate the first row's kcat to the mean of
the target temperature range.  An empty filtered frame raises IndexError in
the source (iloc[0]); modelled as None. -/
def arrhenius_equation (cand : Option String) (pool : List RowT)
    (gc : CriteriaR) : Option ℝ :=
  let obj_temp := (gc.tempMin + gc.tempMax) / 2 + 273.15
  let api_filtered :=
    (arrhenius_filter cand pool gc).map (fun p => (p.1 + 273.15, p.2))
  let ea := find_ea api_filtered
  match api_filtered.head? with
  | none => none
  | some (t0, v0) => some (calculate_kcat obj_temp ea v0 t0)

/-- The failing synthetic input for the round-trip property: two rows at
20 °C and 40 °C obeying ln(k) = ln(A) − Ea/R·(1/T) exactly with A = 1 and
Ea = 80000 J/mol (T in true Kelvin: 293.15 and 313.15). -/
def pool_c2 : List RowT :=
  [⟨some "P1", some 20, some 7, some (Real.exp (-80000 / (8.314 * 293.15)))⟩,
   ⟨some "P1", some 40, some 7, some (Real.exp (-80000 / (8.314 * 313.15)))⟩]

/-- Criteria for the round-trip scenario: target range (28, 32) °C, pH
range (6, 8). -/
def gc_c2 : CriteriaR := ⟨28, 32, 6, 8⟩

end

/-
Concrete scenarios used by the theorems below.
-/

/-- A standard query: enzyme P1, substrates "ATP", products "ADP",
no KEGG reaction id. -/
def q_std : Query := ⟨"1.1.1.1", some "P1", none, some "ATP", some "ADP"⟩

/-- Standard criteria: E. coli, 20–37 °C, pH 6–8, wildtype. -/
def gc_std : Criteria := ⟨"Escherichia coli", 20, 37, 6, 8, "wildtype"⟩

/-- A wildtype BRENDA row matching substrate, pH and temperature but
neither the query enzyme nor the criteria organism. -/
def row_relax : Row :=
  ⟨"brenda", some "X", none, "atp", "p", "Yeast", some 25, some 7,
    some "wildtype", some 5⟩

/-- A wildtype BRENDA row matching every criterion of q_std/gc_std. -/
def row_exact : Row :=
  ⟨"brenda", some "P1", none, "atp", "p", "Escherichia coli", some 25,
    some 7, some "wildtype", some 5⟩

/-- A row matching enzyme, substrate, organism and pH whose temperature
(50 °C) lies outside the range, the pool's only temperature observation. -/
def row_hot : Row :=
  ⟨"brenda", some "P1", none, "atp", "p", "Escherichia coli", some 50,
    some 7, some "wildtype", some 5⟩

/-- A row whose BRENDA commentary mentions neither wildtype nor mutant:
get_variant classifies it as unknown (None). -/
def row_unknown : Row :=
  ⟨"brenda", some "P1", none, "atp", "p", "Escherichia coli", some 25,
    some 7, get_variant (some "at pH 7.0 and 25 C"), some 5⟩

/-- The query of the substrate-check example: substrate name "ATP",
KEGG reaction id R1. -/
def q_c5 : Query := ⟨"2.7.1.1", some "P1", some "R1", some "ATP", some "ADP"⟩

/-- The same query without a KEGG reaction id (name-fallback path). -/
def q_c5b : Query := ⟨"2.7.1.1", some "P1", none, some "ATP", some "ADP"⟩

/-- A SABIO-RK row with reaction id R1 and substrate field "atp;adp" —
lowercase variants of the query's names. -/
def row_c5 : Row :=
  ⟨"sabio_rk", some "P2", some "R1", "atp;adp", "adp", "Escherichia coli",
    some 25, some 7, some "wildtype", some 3⟩

/-- Query whose substrates/products ("A" / "B") run opposite to the
candidate row below. -/
def q_c10 : Query := ⟨"1.1.1.1", none, none, some "A", some "B"⟩

/-- A SABIO-RK row consuming "B" and producing "C": its substrate set meets
the query's products only (opposite direction). -/
def row_c10 : Row :=
  ⟨"sabio_rk", none, some "R2", "B", "C", "Org", none, none, none, some 1⟩

/-- Following the claim's words (for comparison with the source
definition): identity normalized by the ungapped reference protein length
(gap characters removed) instead of the aligned length. -/
def spec_identity_ref_protein (seqRef seqDb : List Char) : ℚ :=
  (100 * (match_count seqRef seqDb : ℚ)) /
    ((seqRef.filter (fun c => c != '-')).length : ℚ)

/-- Following the claim's words (for comparison with the source
definition): case-insensitive set intersection of name sets. -/
def spec_ci_overlap (a b : List String) : Bool :=
  overlaps (a.map lower_str) (b.map lower_str)

/-- Sequence service of the identity scenario: the reference REF resolves
to "A", the candidate DB1 to "AB". -/
def fetch_c6 : Fetch := fun s =>
  if s = "REF" then some ['A']
  else if s = "DB1" then some ['A', 'B'] else none

/-- The global alignment of "A" against "AB": the reference row gains one
gap, giving aligned rows "A-" and "AB". -/
def align_c6 : AlignFn := fun _ _ => (['A', '-'], ['A', 'B'])

/-- Query whose reference accession is REF. -/
def q_c6 : Query := ⟨"1.1.1.1", some "REF", none, some "ATP", some "ADP"⟩

/-- A candidate row carrying accession DB1. -/
def row_c6 : Row :=
  ⟨"brenda", some "DB1", none, "atp", "p", "Org", none, none,
    some "wildtype", some 2⟩

/-- Query whose reference accession NOSEQ has no resolvable sequence. -/
def q_c9 : Query := ⟨"1.1.1.1", some "NOSEQ", none, some "ATP", some "ADP"⟩

instance : Std.Antisymm (fun x1 x2 : ℚ => x1 ≤ x2) :=
  ⟨fun h h' => le_antisymm h h'⟩

/-
Theorems.
-/

/-- C10: in the direction-aware substrate matcher, whenever no candidate
substrate set meets the query's substrates and no candidate product set
meets the query's products, but some candidate substrate set meets the
query's products or some candidate product set meets the query's
substrates, the matcher returns an empty frame: opposite-direction
candidates are rejected outright rather than accepted or penalized. -/
theorem find_rxn_direction_opposite_direction_empty :
    ∀ (q : Query) (df : List Row),
    df.all (fun r =>
      !overlaps (to_set q.substrates_name) (to_set (some r.substrate))) = true →
    df.all (fun r =>
      !overlaps (to_set q.products_name) (to_set (some r.product))) = true →
    (df.any (fun r =>
        overlaps (to_set q.products_name) (to_set (some r.substrate))) = true ∨
      df.any (fun r =>
        overlaps (to_set q.substrates_name) (to_set (some r.product))) = true) →
    (find_rxn_direction q df).1 = [] := by
  intro q df h1 h2 _h3
  have e1 : df.filter (fun r =>
      overlaps (to_set q.substrates_name) (to_set (some r.substrate))) = [] := by
    rw [List.filter_eq_nil_iff]
    intro a ha
    simpa using List.all_eq_true.mp h1 a ha
  have e2 : df.filter (fun r =>
      overlaps (to_set q.products_name) (to_set (some r.product))) = [] := by
    rw [List.filter_eq_nil_iff]
    intro a ha
    simpa using List.all_eq_true.mp h2 a ha
  unfold find_rxn_direction
  simp only [e1, e2, List.isEmpty_nil, Bool.not_true, Bool.false_eq_true,
    if_false]
  split
  · rfl
  · split
    · rfl
    · rfl

/-- C10 witness: the concrete opposite-direction scenario (query A → B,
candidate B → C) yields the empty frame. -/
theorem find_rxn_direction_opposite_direction_empty_witness :
    ([row_c10].any (fun r =>
      overlaps (to_set q_c10.products_name) (to_set (some r.substrate))) = true) ∧
    (find_rxn_direction q_c10 [row_c10]).1 = [] :=
  ⟨by decide,
    find_rxn_direction_opposite_direction_empty q_c10 [row_c10]
      (by decide) (by decide) (Or.inl (by decide))⟩

/-- C9: when the reference accession is missing, ambiguous (contains a
semicolon) or its sequence cannot be retrieved, the similarity ranker
returns the pool with row count and order unchanged and every identity
score None. -/
theorem closest_org_unresolvable_reference_stable :
    ∀ (fetch : Fetch) (align : AlignFn) (q : Query) (df : List Row),
    (q.uniprot_model = none ∨
      ∃ s, q.uniprot_model = some s ∧
        (contains_char s ';' = true ∨ fetch s = none)) →
    closest_org fetch align q df = df.map (fun r => (r, none)) := by
  intro fetch align q df h
  rcases h with h | ⟨s, hs, h⟩
  · simp [closest_org, h]
  · rcases h with h | h
    · simp [closest_org, hs, h]
    · by_cases hsemi : contains_char s ';'
      · simp [closest_org, hs, hsemi]
      · simp [closest_org, hs, hsemi, h]

/-- C9 witness: with a sequence service that resolves nothing, the pool is
returned unchanged with None scores. -/
theorem closest_org_unresolvable_reference_stable_witness :
    closest_org no_fetch pair_align q_c9 [row_relax] = [(row_relax, none)] :=
  closest_org_unresolvable_reference_stable no_fetch pair_align q_c9
    [row_relax] (Or.inr ⟨"NOSEQ", rfl, Or.inr rfl⟩)

/-- C3 (amended): an empty candidate pool always yields kcat None with the
maximal sentinel score 9, no raised error, and no warning logged by the
selector itself. -/
theorem find_best_match_empty_pool_sentinel :
    ∀ (arr : Arr) (fetch : Fetch) (align : AlignFn) (q : Query)
      (gc : Criteria),
    find_best_match arr fetch align q [] gc =
      .ok ((none, some 9, none), []) := by
  intro arr fetch align q gc
  rfl

/-- C3 counterexample: at a concrete query and an empty pool the selector
returns the sentinel with an empty list of logged warnings — no warning is
logged by the selector, contrary to the claim. -/
theorem empty_pool_no_warning_cex :
    find_best_match no_correction no_fetch pair_align q_std [] gc_std =
      .ok ((none, some 9, none), []) := by
  decide

/-- C7 (amended): the selector filters the pool before any level runs, and
the filter keeps exactly the rows whose enzyme variant is the literal
wildtype — both mutant and unknown-variant rows never reach the checkers;
the filter is idempotent. -/
theorem variant_filter_wildtype_only :
    ∀ (arr : Arr) (fetch : Fetch) (align : AlignFn) (q : Query)
      (df : List Row) (gc : Criteria),
    find_best_match arr fetch align q df gc =
      find_best_match arr fetch align q (check_variant df) gc ∧
    (check_variant df).all (fun r => r.variant == some "wildtype") = true ∧
    check_variant (check_variant df) = check_variant df := by
  intro arr fetch align q df gc
  have hidem : check_variant (check_variant df) = check_variant df := by
    simp [check_variant, List.filter_filter]
  refine ⟨?_, ?_, hidem⟩
  · unfold find_best_match
    rw [hidem]
  · refine List.all_eq_true.mpr (fun r hr => ?_)
    have := List.mem_filter.mp hr
    exact this.2

/-- C1 (amended): the selector evaluates the levels in the order exact
match, relaxed organism (score 3/3.2), relaxed enzyme (score 2), relaxed
temperature and pH (score 4), EC only (score 5), and returns the result of
the first level whose kcat is not None, never consulting a later level once
an earlier one produced a value; when every level fails it emits the
sentinel (None, 9, None). -/
theorem find_best_match_level_order :
    ∀ (arr : Arr) (fetch : Fetch) (align : AlignFn) (q : Query)
      (df : List Row) (gc : Criteria),
    (∀ r w, match_exact arr q (check_variant df) gc = .ok (r, w) →
      r.1.isSome = true →
      find_best_match arr fetch align q df gc = .ok (r, w)) ∧
    (∀ r1 w1 r w, match_exact arr q (check_variant df) gc = .ok (r1, w1) →
      r1.1 = none →
      relax_organism arr q (check_variant df) gc = .ok (r, w) →
      r.1.isSome = true →
      find_best_match arr fetch align q df gc = .ok (r, w1 ++ w)) ∧
    (∀ r1 w1 r2 w2 r w,
      match_exact arr q (check_variant df) gc = .ok (r1, w1) →
      r1.1 = none →
      relax_organism arr q (check_variant df) gc = .ok (r2, w2) →
      r2.1 = none →
      relax_enzyme fetch align q (check_variant df) gc = .ok (r, w) →
      r.1.isSome = true →
      find_best_match arr fetch align q df gc = .ok (r, w1 ++ w2 ++ w)) ∧
    (∀ r1 w1 r2 w2 r3 w3 r w,
      match_exact arr q (check_variant df) gc = .ok (r1, w1) →
      r1.1 = none →
      relax_organism arr q (check_variant df) gc = .ok (r2, w2) →
      r2.1 = none →
      relax_enzyme fetch align q (check_variant df) gc = .ok (r3, w3) →
      r3.1 = none →
      relax_temp_and_ph q (check_variant df) gc = .ok (r, w) →
      r.1.isSome = true →
      find_best_match arr fetch align q df gc =
        .ok (r, w1 ++ w2 ++ w3 ++ w)) ∧
    (∀ r1 w1 r2 w2 r3 w3 r4 w4 r w,
      match_exact arr q (check_variant df) gc = .ok (r1, w1) →
      r1.1 = none →
      relax_organism arr q (check_variant df) gc = .ok (r2, w2) →
      r2.1 = none →
      relax_enzyme fetch align q (check_variant df) gc = .ok (r3, w3) →
      r3.1 = none →
      relax_temp_and_ph q (check_variant df) gc = .ok (r4, w4) →
      r4.1 = none →
      just_ec (check_variant df) = .ok (r, w) →
      r.1.isSome = true →
      find_best_match arr fetch align q df gc =
        .ok (r, w1 ++ w2 ++ w3 ++ w4 ++ w)) ∧
    (∀ r1 w1 r2 w2 r3 w3 r4 w4 r5 w5,
      match_exact arr q (check_variant df) gc = .ok (r1, w1) →
      r1.1 = none →
      relax_organism arr q (check_variant df) gc = .ok (r2, w2) →
      r2.1 = none →
      relax_enzyme fetch align q (check_variant df) gc = .ok (r3, w3) →
      r3.1 = none →
      relax_temp_and_ph q (check_variant df) gc = .ok (r4, w4) →
      r4.1 = none →
      just_ec (check_variant df) = .ok (r5, w5) →
      r5.1 = none →
      find_best_match arr fetch align q df gc =
        .ok ((none, some 9, none), w1 ++ w2 ++ w3 ++ w4 ++ w5)) := by
  intro arr fetch align q df gc
  refine ⟨?_, ?_, ?_, ?_, ?_, ?_⟩
  · intro r w h1 hs
    obtain ⟨k, hk⟩ := Option.isSome_iff_exists.mp hs
    simp [find_best_match, h1, hk]
  · intro r1 w1 r w h1 h1n h2 hs
    obtain ⟨k, hk⟩ := Option.isSome_iff_exists.mp hs
    simp [find_best_match, h1, h1n, h2, hk]
  · intro r1 w1 r2 w2 r w h1 h1n h2 h2n h3 hs
    obtain ⟨k, hk⟩ := Option.isSome_iff_exists.mp hs
    simp [find_best_match, h1, h1n, h2, h2n, h3, hk]
  · intro r1 w1 r2 w2 r3 w3 r w h1 h1n h2 h2n h3 h3n h4 hs
    obtain ⟨k, hk⟩ := Option.isSome_iff_exists.mp hs
    simp [find_best_match, h1, h1n, h2, h2n, h3, h3n, h4, hk]
  · intro r1 w1 r2 w2 r3 w3 r4 w4 r w h1 h1n h2 h2n h3 h3n h4 h4n h5 hs
    obtain ⟨k, hk⟩ := Option.isSome_iff_exists.mp hs
    simp [find_best_match, h1, h1n, h2, h2n, h3, h3n, h4, h4n, h5, hk]
  · intro r1 w1 r2 w2 r3 w3 r4 w4 r5 w5 h1 h1n h2 h2n h3 h3n h4 h4n h5 h5n
    simp [find_best_match, h1, h1n, h2, h2n, h3, h3n, h4, h4n, h5, h5n]

/-- C1 witness: a pool whose single row satisfies every exact-match
criterion makes the first level succeed, and the selector returns its
result (score 1). -/
theorem find_best_match_level_order_witness :
    find_best_match no_correction no_fetch pair_align q_std [row_exact]
      gc_std = .ok ((some 5, some 1, some "brenda"), []) :=
  (find_best_match_level_order no_correction no_fetch pair_align q_std
    [row_exact] gc_std).1 (some 5, some 1, some "brenda") []
    (by decide) (by decide)

/-- C1 counterexample: on a pool whose single wildtype row matches
substrate, pH and temperature but neither enzyme nor organism, the exact
level fails, the claimed second level (relaxed enzyme, score 2) would
succeed — yet the selector returns the relaxed-organism result (score 3):
the code relaxes organism before enzyme, contradicting the claimed order. -/
theorem find_best_match_relax_order_cex :
    match_exact no_correction q_std (check_variant [row_relax]) gc_std =
      .ok ((none, none, none), []) ∧
    relax_enzyme no_fetch pair_align q_std (check_variant [row_relax])
      gc_std = .ok ((some 5, some 2, some "brenda"), []) ∧
    find_best_match no_correction no_fetch pair_align q_std [row_relax]
      gc_std = .ok ((some 5, some 3, some "brenda"), []) := by
  refine ⟨by decide, by decide, by decide⟩

/-- C4: under any faithful model of the missing Arrhenius corrector, when
the exact-match stages succeed but the temperature check leaves nothing and
fewer than two distinct qualifying temperature observations exist, the
correction returns None (it is skipped), and match_exact completes without
error, yielding no hit so that the selector proceeds to the next level. -/
theorem arrhenius_gate_skips_without_raising :
    ∀ (arr : Arr), ArrGateFaithful arr →
    ∀ (q : Query) (df : List Row) (gc : Criteria) (df1 : List Row)
      (w : List String),
    match_exact_filtered q df gc = .ok (df1, w) →
    check_temp df1 gc = [] →
    arr_applicable df1 gc = false →
    arr df1 gc = none ∧
    match_exact arr q df gc = .ok ((none, none, none), w) := by
  intro arr hgate q df gc df1 w hfil htemp happ
  have harr := hgate df1 gc happ
  refine ⟨harr, ?_⟩
  unfold match_exact
  rw [hfil]
  by_cases hemp : df1.isEmpty
  · simp [hemp]
  · simp [hemp, htemp, harr]

/-- C4 witness: the single-observation scenario (temperature 50 °C outside
the 20–37 °C range, one qualifying point) under the no-correction oracle:
the correction is skipped and match_exact yields no hit without raising. -/
theorem arrhenius_gate_skips_without_raising_witness :
    no_correction [row_hot] gc_std = none ∧
    match_exact no_correction q_std [row_hot] gc_std =
      .ok ((none, none, none), []) :=
  arrhenius_gate_skips_without_raising no_correction (fun _ _ _ => rfl)
    q_std [row_hot] gc_std [row_hot] [] (by decide) (by decide) (by decide)

/-- C8 (amended): with the default method min, aggregation returns
(None, None) when no valid numeric values exist, and otherwise the first
row achieving the minimum numeric value together with its source database;
max is the only alternate policy — requesting mean raises ValueError. -/
theorem create_kcat_value_min_default_policy :
    (∀ df : List Row, df.all (fun r => r.value.isNone) = true →
      create_kcat_value df "min" = .ok (none, none)) ∧
    (∀ (df : List Row) (v : ℚ) (d : String),
      create_kcat_value df "min" = .ok (some v, some d) →
      (∃ r ∈ df, r.value = some v ∧ r.db = d) ∧
      ∀ r ∈ df, ∀ w, r.value = some w → v ≤ w) ∧
    (∀ df : List Row, (∃ r ∈ df, r.value.isSome = true) →
      create_kcat_value df "mean" =
        .error "Invalid method parameter. Choose from max, or min.") := by
  refine ⟨?_, ?_, ?_⟩
  · intro df h
    have hnil : df.filterMap (fun r => r.value) = [] := by
      rw [List.filterMap_eq_nil_iff]
      intro r hr
      have := List.all_eq_true.mp h r hr
      simpa [Option.isNone_iff_eq_none] using this
    simp [create_kcat_value, hnil]
  · intro df v d h
    unfold create_kcat_value at h
    by_cases hempty : (df.filterMap (fun r => r.value)).isEmpty
    · rw [if_pos hempty] at h
      simp at h
    · rw [if_neg hempty, if_neg (by decide), if_pos rfl] at h
      cases hmin : (df.filterMap (fun r => r.value)).min? with
      | none => rw [hmin] at h; simp at h
      | some m =>
        rw [hmin] at h
        dsimp only at h
        cases hfind : df.find? (fun r => r.value == some m) with
        | none => rw [hfind] at h; simp at h
        | some r =>
          rw [hfind] at h
          simp only [Except.ok.injEq, Prod.mk.injEq, Option.some_inj] at h
          obtain ⟨hmv, hdb⟩ := h
          rw [List.min?_eq_some_iff (fun a => le_refl a)
            (fun a b => min_choice a b) (fun a b c => le_min_iff)] at hmin
          have hrmem := List.mem_of_find?_eq_some hfind
          have hrval : r.value = some m := by
            simpa using List.find?_some hfind
          constructor
          · exact ⟨r, hrmem, by rw [hrval, hmv], hdb⟩
          · intro r' hr' w hw
            have hwmem : w ∈ df.filterMap (fun r => r.value) :=
              List.mem_filterMap.mpr ⟨r', hr', hw⟩
            rw [← hmv]
            exact hmin.2 w hwmem
  · intro df h
    obtain ⟨r, hr, hrs⟩ := h
    obtain ⟨w, hw⟩ := Option.isSome_iff_exists.mp hrs
    have hmem : w ∈ df.filterMap (fun r => r.value) :=
      List.mem_filterMap.mpr ⟨r, hr, hw⟩
    have hne : (df.filterMap (fun r => r.value)).isEmpty = false := by
      cases hcase : (df.filterMap (fun r => r.value)).isEmpty
      · rfl
      · rw [List.isEmpty_iff] at hcase
        rw [hcase] at hmem
        simp at hmem
    simp [create_kcat_value, hne]

/-- C8 witness: a pool with one numeric value makes mean raise, and the
empty pool aggregates to (None, None). -/
theorem create_kcat_value_min_default_policy_witness :
    create_kcat_value [row_relax] "mean" =
      .error "Invalid method parameter. Choose from max, or min." ∧
    create_kcat_value [] "min" = .ok (none, none) :=
  ⟨create_kcat_value_min_default_policy.2.2 [row_relax]
      ⟨row_relax, by decide, by decide⟩,
    create_kcat_value_min_default_policy.1 [] (by decide)⟩

/-- C8 counterexample: requesting the mean aggregation policy on a pool
with a valid numeric value raises ValueError — mean is not an available
policy of the final aggregator, contrary to the claim. -/
theorem mean_policy_unavailable_cex :
    create_kcat_value [row_relax] "mean" =
      .error "Invalid method parameter. Choose from max, or min." := by
  decide

/-- C6 (amended): the ranker's identity score is 100 times the number of
positionwise character matches divided by the length of the aligned
reference sequence, which for aligned (equal-length) rows equals the
alignment length — not the ungapped reference protein length. -/
theorem calculate_identity_alignment_length :
    ∀ (a b : List Char), a.length = b.length → a ≠ [] →
    calculate_identity a b * (a.length : ℚ) = 100 * (match_count a b : ℚ) ∧
    calculate_identity a b = 100 * (match_count a b : ℚ) / (b.length : ℚ) := by
  intro a b hlen hne
  have h0 : (a.length : ℚ) ≠ 0 := by
    exact_mod_cast fun h => hne (List.length_eq_zero.mp h)
  constructor
  · unfold calculate_identity
    exact div_mul_cancel₀ _ h0
  · unfold calculate_identity
    rw [hlen]

/-- C6 witness: for the aligned rows "A-" and "AB" the score satisfies
both equations of the theorem. -/
theorem calculate_identity_alignment_length_witness :
    calculate_identity ['A', '-'] ['A', 'B'] *
        ((['A', '-'] : List Char).length : ℚ) =
      100 * (match_count ['A', '-'] ['A', 'B'] : ℚ) ∧
    calculate_identity ['A', '-'] ['A', 'B'] =
      100 * (match_count ['A', '-'] ['A', 'B'] : ℚ) /
        ((['A', 'B'] : List Char).length : ℚ) :=
  calculate_identity_alignment_length ['A', '-'] ['A', 'B']
    (by decide) (by decide)

/-- C6 counterexample: aligning reference "A" against candidate "AB" gives
the aligned rows "A-" / "AB"; the ranker scores 50 (denominator: aligned
length 2), while normalizing by the ungapped reference protein length
(1, per the claim) would give 100. -/
theorem identity_denominator_cex :
    closest_org fetch_c6 align_c6 q_c6 [row_c6] = [(row_c6, some 50)] ∧
    spec_identity_ref_protein ['A', '-'] ['A', 'B'] = 100 ∧
    calculate_identity ['A', '-'] ['A', 'B'] ≠
      spec_identity_ref_protein ['A', '-'] ['A', 'B'] := by
  have hmc : match_count ['A', '-'] ['A', 'B'] = 1 := by decide
  have hid : calculate_identity ['A', '-'] ['A', 'B'] = 50 := by
    unfold calculate_identity
    rw [hmc]
    norm_num
  have hlen : ((['A', '-'] : List Char).filter (fun c => c != '-')).length
      = 1 := by decide
  have hspec : spec_identity_ref_protein ['A', '-'] ['A', 'B'] = 100 := by
    unfold spec_identity_ref_protein
    rw [hmc, hlen]
    norm_num
  have hsemi : contains_char "REF" ';' = false := by decide
  refine ⟨?_, hspec, ?_⟩
  · simp [closest_org, q_c6, hsemi, fetch_c6, identity_of, row_c6,
      align_c6, hid]
  · rw [hid, hspec]
    norm_num

/-- Helper: once every element of the tail is already seen, first-occurrence
deduplication yields nothing further. -/
theorem unique_first_aux_all_seen {α : Type} [BEq α] :
    ∀ (l : List α) (seen : List α),
    (∀ x ∈ l, seen.contains x = true) → unique_first_aux seen l = [] := by
  intro l
  induction l with
  | nil => intro seen _; rfl
  | cons a rest ih =>
    intro seen h
    have ha := h a (by simp)
    simp only [unique_first_aux, ha, if_true]
    exact ih seen (fun x hx => h x (by simp [hx]))

/-- Helper: a nonempty list of db tags all equal to "sabio_rk"
deduplicates to the single tag. -/
theorem unique_first_const_sabio :
    ∀ (a : String) (l : List String), a = "sabio_rk" →
    (∀ x ∈ l, x = "sabio_rk") →
    unique_first (a :: l) = ["sabio_rk"] := by
  intro a l ha hl
  subst ha
  unfold unique_first
  simp only [unique_first_aux, List.contains_nil, if_false, Bool.false_eq_true]
  rw [unique_first_aux_all_seen]
  intro x hx
  rw [hl x hx]
  simp

/-- C5 (amended): the substrate check is case-insensitive in the
name-fallback path — over a SABIO-RK pool with no KEGG reaction id it keeps
exactly the rows some of whose stripped, lowercased substrate names contain
a stripped, lowercased query substrate name — while the reaction-identifier
path compares raw names case-sensitively; the query substrate "ATP" against
the candidate field "atp;adp" is nevertheless accepted (with the full row
returned, penalty 0) through the fallback after the reaction-id path logged
its failure. -/
theorem check_substrate_case_sensitivity_paths :
    (∀ (q : Query) (df : List Row),
      df.all (fun r => r.db == "sabio_rk") = true →
      q.kegg_rxn_id = none →
      check_substrate q df =
        .ok (df.filter (fun r => has_substrate_match q r.substrate), [])) ∧
    check_substrate q_c5 [row_c5] =
      .ok ([row_c5],
        ["no substrate or product matches between the two data sets"]) := by
  constructor
  · intro q df hall hk
    unfold check_substrate
    cases df with
    | nil => rfl
    | cons a rest =>
      have ha : a.db = "sabio_rk" := by
        simpa using List.all_eq_true.mp hall a (by simp)
      have hrest : ∀ r ∈ rest, r.db = "sabio_rk" := by
        intro r hr
        simpa using List.all_eq_true.mp hall r (List.mem_cons_of_mem a hr)
      have huniq : unique_first ((a :: rest).map (fun r => r.db)) =
          ["sabio_rk"] := by
        simp only [List.map_cons]
        exact unique_first_const_sabio _ _ ha
          (fun x hx => by
            obtain ⟨r, hr, hrx⟩ := List.mem_map.mp hx
            rw [← hrx]; exact hrest r hr)
      rw [huniq]
      have hfilter : (a :: rest).filter (fun r => r.db == "sabio_rk") =
          a :: rest := by
        rw [List.filter_eq_self]
        intro r hr
        rcases List.mem_cons.mp hr with h | h
        · subst h; simp [ha]
        · simp [hrest r h]
      simp only [check_substrate_go, if_pos, hk, hfilter]
      simp [Except.map]
  · decide

/-- C5 witness: for the ATP query without a KEGG id over the single
SABIO-RK row, the check reduces to the case-insensitive name filter. -/
theorem check_substrate_case_sensitivity_paths_witness :
    check_substrate q_c5b [row_c5] =
      .ok ([row_c5].filter
        (fun r => has_substrate_match q_c5b r.substrate), []) :=
  check_substrate_case_sensitivity_paths.1 q_c5b [row_c5] (by decide) rfl

/-- C5 counterexample: the candidate's reaction identifier equals the
query's, the case-insensitive substrate intersection is nonempty
("ATP" vs "atp;adp"), yet the reaction-identifier path rejects the row —
it intersects raw names case-sensitively, contrary to the claim. -/
theorem rxn_id_path_case_sensitive_cex :
    row_c5.keggReactionID = q_c5.kegg_rxn_id ∧
    spec_ci_overlap (to_set q_c5.substrates_name)
      (to_set (some row_c5.substrate)) = true ∧
    find_rxn_direction q_c5 [row_c5] =
      ([], ["no substrate or product matches between the two data sets"]) := by
  decide

/-- Helper: the degree-1 least-squares slope of exactly two points with
distinct abscissas is the difference quotient. -/
theorem ols_slope_pair (x1 x2 y1 y2 : ℝ) (h : x1 ≠ x2) :
    ols_slope [x1, x2] [y1, y2] = (y1 - y2) / (x1 - x2) := by
  have hd : x1 - x2 ≠ 0 := sub_ne_zero.mpr h
  have key : ∀ A B : ℝ, A = (x1 - x2) * (y1 - y2) →
      B = (x1 - x2) * (x1 - x2) → A / B = (y1 - y2) / (x1 - x2) := by
    intro A B hA hB
    rw [hA, hB, mul_div_mul_left _ _ hd]
  unfold ols_slope
  simp only [List.zip_cons_cons, List.zip_nil_right, List.map_cons,
    List.map_nil, List.sum_cons, List.sum_nil, List.length_cons,
    List.length_nil]
  apply key <;> push_cast <;> ring

/-- Helper: find_ea on exactly two observations, in closed form. -/
theorem find_ea_pair (t1 t2 k1 k2 : ℝ)
    (h : 1 / (t1 + 273.15) ≠ 1 / (t2 + 273.15)) :
    find_ea [(t1, k1), (t2, k2)] =
      (-((Real.log k1 - Real.log k2) /
        (1 / (t1 + 273.15) - 1 / (t2 + 273.15)))) * 8.314 := by
  unfold find_ea
  simp only [List.map_cons, List.map_nil]
  rw [ols_slope_pair _ _ _ _ h]

/-- Helper: the filter of arrhenius_equation keeps the two synthetic rows
as raw (°C, value) pairs. -/
theorem arrhenius_filter_c2_eval :
    arrhenius_filter (some "P1") pool_c2 gc_c2 =
      [((20 : ℝ), Real.exp (-80000 / (8.314 * 293.15))),
       ((40 : ℝ), Real.exp (-80000 / (8.314 * 313.15)))] := by
  unfold arrhenius_filter pool_c2 gc_c2
  norm_num [Option.bind, List.filterMap_cons]

/-- C2: on the synthetic two-point input obeying the Arrhenius law exactly
with Ea = 80000 J/mol (rows at 20 °C and 40 °C), the corrector's pipeline —
which converts the temperatures to Kelvin before handing them to find_ea,
which adds 273.15 again — fits Ea = 80000 · (566.3·586.3)/(293.15·313.15)
(≈ 289,346 J/mol), not 80000; feeding find_ea the unconverted Celsius
temperatures (a single conversion, as its docstring specifies) recovers
80000 exactly, locating the slip in the double conversion. -/
theorem arrhenius_double_conversion_eval :
    find_ea ((arrhenius_filter (some "P1") pool_c2 gc_c2).map
        (fun p => (p.1 + 273.15, p.2))) =
      80000 * ((566.3 * 586.3) / (293.15 * 313.15)) ∧
    find_ea ((arrhenius_filter (some "P1") pool_c2 gc_c2).map
        (fun p => (p.1 + 273.15, p.2))) ≠ 80000 ∧
    find_ea (arrhenius_filter (some "P1") pool_c2 gc_c2) = 80000 := by
  have hmap : (arrhenius_filter (some "P1") pool_c2 gc_c2).map
      (fun p => (p.1 + 273.15, p.2)) =
      [((293.15 : ℝ), Real.exp (-80000 / (8.314 * 293.15))),
       ((313.15 : ℝ), Real.exp (-80000 / (8.314 * 313.15)))] := by
    rw [arrhenius_filter_c2_eval]
    norm_num
  have h1 : find_ea ((arrhenius_filter (some "P1") pool_c2 gc_c2).map
      (fun p => (p.1 + 273.15, p.2))) =
      80000 * ((566.3 * 586.3) / (293.15 * 313.15)) := by
    rw [hmap, find_ea_pair _ _ _ _ (by norm_num), Real.log_exp,
      Real.log_exp]
    norm_num
  refine ⟨h1, ?_, ?_⟩
  · rw [h1]
    norm_num
  · rw [arrhenius_filter_c2_eval, find_ea_pair _ _ _ _ (by norm_num),
      Real.log_exp, Real.log_exp]
    norm_num

/-- C7 counterexample: a candidate whose commentary determines no variant
(get_variant returns None, i.e. unknown) is excluded by the wildtype
filter, and an otherwise perfectly matching pool made of that single row
ends at the no-match sentinel instead of being penalized by 1. -/
theorem unknown_variant_excluded_cex :
    get_variant (some "at pH 7.0 and 25 C") = none ∧
    check_variant [row_unknown] = [] ∧
    find_best_match no_correction no_fetch pair_align q_std [row_unknown]
      gc_std = .ok ((none, some 9, none), []) := by
  decide

end WildKcat
